import Mathlib

/-!
Verification development for the FITSTIC_UI repository: three Streamlit
front-ends (penguin species, Titanic survival, diabetes risk) plus a
standalone script (app.py). Each app collects a fixed-schema record,
builds a one-row tabular input, invokes a pre-trained model, and renders
the predicted label with threshold-rule commentary.

Modelling conventions:
- Python floats entering threshold comparisons are modelled as rationals;
  all thresholds and widget steps are exactly comparable at this precision.
- Python dict subscripting is modelled as an Option-valued lookup, where
  a `none` result stands for a raised KeyError.
- A model handle is a record of functions returning `Except String`,
  where an `error` result stands for a raised exception in `predict` /
  `predict_proba`.
- Each app main is a function from the loading outcome, the button state
  and the control values to a trace recording the messages shown, the
  number of predictor invocations and whether an exception escaped.
- Pure numeric formatting of messages (f-strings that round floats) is
  abstracted: output constructors carry the raw values they display.
-/

/-- The error banner shown by every load_model on a caught exception,
for exception text e. -/
def loadErrorMsg (e : String) : String := "Error loading model: " ++ e

/-- The error banner shown by every make_prediction on a caught
exception, for exception text e. -/
def predictionErrorMsg (e : String) : String := "Error making prediction: " ++ e

/-- The caught-IndexError banner when a model returns an empty
prediction array and element 0 is requested. -/
def indexErrorMsg : String :=
  predictionErrorMsg "index 0 is out of bounds"

/-- Execution trace of one scripted run of an app: messages shown via
st.error, number of model.predict invocations, number of
display_results invocations, rendered outputs, and whether an uncaught
exception escaped the run. -/
structure Trace (α : Type) where
  errors : List String
  predictCalls : ℕ
  renderCalls : ℕ
  outputs : List α
  crashed : Bool
deriving Repr

namespace Diabetes

/-- The diabetes input record built by get_patient_input in
src/pages/diabetes.py. Integer-valued controls are naturals, float
controls are rationals. -/
structure Record where
  pregnancies : ℕ
  glucose : ℕ
  bloodPressure : ℕ
  skinThickness : ℕ
  insulin : ℕ
  bmi : ℚ
  diabetesPedigree : ℚ
  age : ℕ
deriving DecidableEq, Repr

/-- Bounds declared on the controls of get_patient_input. -/
def validRecord (r : Record) : Prop :=
  r.pregnancies ≤ 20 ∧ r.glucose ≤ 200 ∧ r.bloodPressure ≤ 200 ∧
  r.skinThickness ≤ 100 ∧ r.insulin ≤ 846 ∧
  0 ≤ r.bmi ∧ r.bmi ≤ 70 ∧
  0 ≤ r.diabetesPedigree ∧ r.diabetesPedigree ≤ 5/2 ∧ r.age ≤ 120

instance (r : Record) : Decidable (validRecord r) := by
  unfold validRecord; infer_instance

def highGlucoseNote : String := "⚠️ High glucose level indicates increased risk"
def borderlineGlucoseNote : String := "⚠️ Borderline glucose level"
def obesityNote : String := "⚠️ BMI indicates obesity (BMI ≥ 30)"
def overweightNote : String := "⚠️ BMI indicates overweight (BMI 25-29.9)"
def bloodPressureNote : String := "⚠️ Elevated blood pressure"
def ageNote : String := "⚠️ Age is a risk factor (≥ 45 years)"
def familyHistoryNote : String := "⚠️ Strong family history of diabetes"

/-- Glucose assessment block of assess_risk_factors. -/
def glucoseNotes (r : Record) : List String :=
  if r.glucose ≥ 140 then [highGlucoseNote]
  else if r.glucose ≥ 100 then [borderlineGlucoseNote]
  else []

/-- BMI assessment block of assess_risk_factors. -/
def bmiNotes (r : Record) : List String :=
  if r.bmi ≥ 30 then [obesityNote]
  else if r.bmi ≥ 25 then [overweightNote]
  else []

/-- Blood-pressure assessment block of assess_risk_factors. -/
def bloodPressureNotes (r : Record) : List String :=
  if r.bloodPressure ≥ 90 then [bloodPressureNote] else []

/-- Age assessment block of assess_risk_factors. -/
def ageNotes (r : Record) : List String :=
  if r.age ≥ 45 then [ageNote] else []

/-- Family-history assessment block of assess_risk_factors. -/
def pedigreeNotes (r : Record) : List String :=
  if r.diabetesPedigree ≥ 8/10 then [familyHistoryNote] else []

/-- assess_risk_factors from src/pages/diabetes.py: the five threshold
blocks append to risk_factors in source order. -/
def assess_risk_factors (r : Record) : List String :=
  glucoseNotes r ++ bmiNotes r ++ bloodPressureNotes r ++
    ageNotes r ++ pedigreeNotes r

/-- The default control values of get_patient_input, except Glucose set
to 139. -/
def r139 : Record :=
  { pregnancies := 0, glucose := 139, bloodPressure := 70,
    skinThickness := 20, insulin := 79, bmi := 23,
    diabetesPedigree := 32/100, age := 30 }

/-- The same record with Glucose raised to 140. -/
def r140 : Record := { r139 with glucose := 140 }

/-- The model handle loaded from model_el.pkl: an opaque classifier
exposing predict and predict_proba over a one-row tabular input; an
error value stands for a raised exception. -/
structure Model where
  predict : List Record → Except String (List ℤ)
  predict_proba : List Record → Except String (List (ℚ × ℚ))

/-- Outcome of one make_prediction run: the returned pair, the error
banners shown, and the argument of each model.predict invocation. -/
structure PredOutcome where
  result : Option ℤ × Option (ℚ × ℚ)
  errors : List String
  predictArgs : List (List Record)

/-- load_model from src/pages/diabetes.py: joblib.load in a try/except
that shows one error banner and returns None on failure. -/
def load_model (artifact : Except String Model) : Option Model × List String :=
  match artifact with
  | .ok m => (some m, [])
  | .error e => (Option.none, [loadErrorMsg e])

/-- get_patient_input from src/pages/diabetes.py as a function of the
widget values. -/
def get_patient_input (pregnancies glucose bloodPressure skinThickness
    insulin : ℕ) (bmi diabetesPedigree : ℚ) (age : ℕ) : Record :=
  { pregnancies := pregnancies, glucose := glucose,
    bloodPressure := bloodPressure, skinThickness := skinThickness,
    insulin := insulin, bmi := bmi, diabetesPedigree := diabetesPedigree,
    age := age }

/-- make_prediction from src/pages/diabetes.py: builds a one-row frame,
calls predict then predict_proba, returns (prediction[0],
probability); any raised exception is caught, shown once, and turned
into the pair (None, None). -/
def make_prediction (m : Model) (input_data : Record) : PredOutcome :=
  let df := [input_data]
  match m.predict df with
  | .error e => ⟨(Option.none, Option.none), [predictionErrorMsg e], [df]⟩
  | .ok preds =>
    match m.predict_proba df with
    | .error e => ⟨(Option.none, Option.none), [predictionErrorMsg e], [df]⟩
    | .ok probas =>
      match preds, probas with
      | p :: _, q :: _ => ⟨(some p, some q), [], [df]⟩
      | _, _ => ⟨(Option.none, Option.none), [indexErrorMsg], [df]⟩

/-- One rendered Streamlit element of the diabetes page. -/
inductive Output where
  | success (msg : String)
  | errorBox (msg : String)
  | info (msg : String)
  | markdown (msg : String)
  | subheader (msg : String)
  | metric (label : String) (value : ℚ)
deriving DecidableEq, Repr

def noRiskFactorsMsg : String :=
  "✅ No major risk factors identified in the provided metrics"

def recommendationsInfo : String :=
  "Remember these key factors for diabetes prevention: maintain a healthy weight, exercise regularly (at least 150 minutes per week), eat a balanced diet rich in whole grains, lean proteins, and vegetables, monitor blood glucose levels regularly if at risk, and get regular medical check-ups. **Important**: This is a screening tool only. Please consult healthcare professionals for proper medical advice and diagnosis."

/-- display_results from src/pages/diabetes.py. A none result stands
for an exception escaping the function (subscripting a missing
probability); the header is rendered unconditionally and the rest only
when prediction is not None. -/
def display_results (prediction : Option ℤ) (probability : Option (ℚ × ℚ))
    (input_data : Record) : Option (List Output) :=
  let header : List Output :=
    [Output.markdown "---", Output.subheader "Risk Assessment Results"]
  match prediction with
  | Option.none => some header
  | some p =>
    match probability with
    | Option.none => Option.none
    | some q =>
      let outcome := if p = 1 then Output.errorBox "### Higher Risk of Diabetes"
                     else Output.success "### Lower Risk of Diabetes"
      let risk_factors := assess_risk_factors input_data
      some (header ++
        [outcome, Output.metric "Risk Probability" (q.2 * 100),
         Output.markdown "### Risk Factor Analysis"] ++
        (if risk_factors.isEmpty then [Output.markdown noRiskFactorsMsg]
         else risk_factors.map Output.markdown) ++
        [Output.markdown "### General Health Recommendations",
         Output.info recommendationsInfo])

/-- main from src/pages/diabetes.py: load the model, return early when
it is absent, collect input, and on the button press predict and
render. -/
def main (artifact : Except String Model) (buttonPressed : Bool)
    (pregnancies glucose bloodPressure skinThickness insulin : ℕ)
    (bmi diabetesPedigree : ℚ) (age : ℕ) : Trace Output :=
  match load_model artifact with
  | (Option.none, msgs) => ⟨msgs, 0, 0, [], false⟩
  | (some m, msgs) =>
    let input_data := get_patient_input pregnancies glucose bloodPressure
      skinThickness insulin bmi diabetesPedigree age
    if buttonPressed then
      let t := make_prediction m input_data
      match display_results t.result.1 t.result.2 input_data with
      | some outs => ⟨msgs ++ t.errors, t.predictArgs.length, 1, outs, false⟩
      | Option.none => ⟨msgs ++ t.errors, t.predictArgs.length, 1, [], true⟩
    else ⟨msgs, 0, 0, [], false⟩

end Diabetes

/-- A Python value as it may come back from a model predict array:
None, an integer label, or a string label. -/
inductive PyVal where
  | none
  | int (n : ℤ)
  | str (s : String)
deriving DecidableEq, Repr

/-- Python str.lower for the ASCII strings used by the apps. -/
def pyLower (s : String) : String := ⟨s.data.map Char.toLower⟩

/-- Python truthiness of a predict result value. -/
def truthy : PyVal → Bool
  | PyVal.none => false
  | PyVal.int n => n != 0
  | PyVal.str s => s != ""

/-- Python str() of a predict result value, as used in f-strings. -/
def pyStr : PyVal → String
  | PyVal.none => "None"
  | PyVal.int n => toString n
  | PyVal.str s => s

namespace Penguins

/-- The penguin input record built by get_user_input in
src/pag/penguins.py. -/
structure Record where
  bill_length_mm : ℚ
  bill_depth_mm : ℚ
  flipper_length_mm : ℕ
  body_mass_g : ℕ
  sex : String
  island : String
deriving DecidableEq, Repr

/-- Bounds and enumerations declared on the controls of
get_user_input. -/
def validRecord (r : Record) : Prop :=
  30 ≤ r.bill_length_mm ∧ r.bill_length_mm ≤ 60 ∧
  13 ≤ r.bill_depth_mm ∧ r.bill_depth_mm ≤ 22 ∧
  170 ≤ r.flipper_length_mm ∧ r.flipper_length_mm ≤ 240 ∧
  2700 ≤ r.body_mass_g ∧ r.body_mass_g ≤ 6300 ∧
  r.sex ∈ (["male", "female"] : List String) ∧
  r.island ∈ (["Torgersen", "Biscoe", "Dream"] : List String)

/-- get_user_input from src/pag/penguins.py: the sex radio value is
lower-cased, every other widget value is passed through unchanged. -/
def get_user_input (bill_length bill_depth : ℚ)
    (flipper_length body_mass : ℕ) (sex island : String) : Record :=
  { bill_length_mm := bill_length, bill_depth_mm := bill_depth,
    flipper_length_mm := flipper_length, body_mass_g := body_mass,
    sex := pyLower sex, island := island }

/-- The model handle loaded from Penguins.pkl. -/
structure Model where
  predict : List Record → Except String (List PyVal)

/-- Outcome of one make_prediction run. -/
structure PredOutcome where
  result : PyVal
  errors : List String
  predictArgs : List (List Record)
deriving Repr

/-- load_model from src/pag/penguins.py. -/
def load_model (artifact : Except String Model) : Option Model × List String :=
  match artifact with
  | .ok m => (some m, [])
  | .error e => (Option.none, [loadErrorMsg e])

/-- make_prediction from src/pag/penguins.py: one-row frame, one
predict call, returns prediction[0]; a caught exception is shown once
and yields None. -/
def make_prediction (m : Model) (input_data : Record) : PredOutcome :=
  let df := [input_data]
  match m.predict df with
  | .error e => ⟨PyVal.none, [predictionErrorMsg e], [df]⟩
  | .ok [] => ⟨PyVal.none, [indexErrorMsg], [df]⟩
  | .ok (p :: _) => ⟨p, [], [df]⟩

/-- One rendered Streamlit element of the penguins page. -/
inductive Output where
  | success (msg : String)
  | info (msg : String)
  | markdown (msg : String)
  | subheader (msg : String)
deriving DecidableEq, Repr

/-- The species_info dictionary of display_results: species name,
description, fun fact. -/
def species_info : List (String × String × String) :=
  [("Adelie",
    "Adelie penguins are the smallest of the Palmer penguins, known for their distinctive white ring around their eyes.",
    "They can swim up to 45 miles per hour!"),
   ("Gentoo",
    "Gentoo penguins are the largest of the Palmer penguins, recognized by their bright orange-red bill and white stripe across the top of their head.",
    "They\x27re the fastest underwater swimming penguins, reaching speeds of 22 mph!"),
   ("Chinstrap",
    "Chinstrap penguins are named for the narrow black band under their heads, making them appear to wear a tiny black helmet.",
    "They make nests out of small stones and can be quite aggressive in defending them!")]

/-- The Python test prediction in species_info: true exactly for the
three string keys, false (without error) for any other value. -/
def speciesLookup (p : PyVal) : Option (String × String) :=
  match p with
  | PyVal.str s =>
    (species_info.find? (fun t => t.1 == s)).map (fun t => (t.2.1, t.2.2))
  | _ => Option.none

/-- display_results from src/pag/penguins.py: header always; success
banner and species commentary only under Python truthiness of the
prediction value. -/
def display_results (prediction : PyVal) : List Output :=
  let header : List Output :=
    [Output.markdown "---", Output.subheader "Prediction Results"]
  if truthy prediction then
    header ++
      [Output.success ("🎯 This penguin is predicted to be a **" ++
        pyStr prediction ++ "** penguin!")] ++
      (match speciesLookup prediction with
       | some (d, f) =>
         [Output.info ("**About " ++ pyStr prediction ++ " Penguins:**\n\n" ++ d),
          Output.markdown ("**Fun Fact:** " ++ f)]
       | Option.none => [])
  else header

/-- main from src/pag/penguins.py: load the model, return early when
absent, collect input, and on the button press predict and render;
display_results is called on the raw make_prediction result. -/
def main (artifact : Except String Model) (buttonPressed : Bool)
    (bill_length bill_depth : ℚ) (flipper_length body_mass : ℕ)
    (sex island : String) : Trace Output :=
  match load_model artifact with
  | (Option.none, msgs) => ⟨msgs, 0, 0, [], false⟩
  | (some m, msgs) =>
    let input_data := get_user_input bill_length bill_depth flipper_length
      body_mass sex island
    if buttonPressed then
      let t := make_prediction m input_data
      ⟨msgs ++ t.errors, t.predictArgs.length, 1, display_results t.result, false⟩
    else ⟨msgs, 0, 0, [], false⟩

end Penguins

namespace Titanic

/-- The passenger record built by get_passenger_input in
src/pag/titanic.py. -/
structure Record where
  pclass : ℕ
  sex : String
  age : ℕ
  sibsp : ℕ
  parch : ℕ
  fare : ℚ
  embarked : String
deriving DecidableEq, Repr

/-- Bounds and enumerations declared on the controls of
get_passenger_input. -/
def validRecord (r : Record) : Prop :=
  r.pclass ∈ ([1, 2, 3] : List ℕ) ∧
  r.sex ∈ (["male", "female"] : List String) ∧
  r.age ≤ 100 ∧ r.sibsp ≤ 8 ∧ r.parch ≤ 6 ∧
  0 ≤ r.fare ∧ r.fare ≤ 600 ∧
  r.embarked ∈ (["C", "Q", "S"] : List String)

/-- get_passenger_input from src/pag/titanic.py: every widget value is
passed through into the feature dictionary unchanged. -/
def get_passenger_input (pclass : ℕ) (sex : String) (age : ℕ)
    (embarked : String) (sibsp parch : ℕ) (fare : ℚ) : Record :=
  { pclass := pclass, sex := sex, age := age, sibsp := sibsp,
    parch := parch, fare := fare, embarked := embarked }

/-- The model handle loaded from Titanic.pkl. -/
structure Model where
  predict : List Record → Except String (List ℤ)
  predict_proba : List Record → Except String (List (ℚ × ℚ))

/-- Outcome of one make_prediction run. -/
structure PredOutcome where
  result : Option ℤ × Option (ℚ × ℚ)
  errors : List String
  predictArgs : List (List Record)

/-- load_model from src/pag/titanic.py. -/
def load_model (artifact : Except String Model) : Option Model × List String :=
  match artifact with
  | .ok m => (some m, [])
  | .error e => (Option.none, [loadErrorMsg e])

/-- make_prediction from src/pag/titanic.py: one-row frame, predict
then predict_proba, returns (prediction[0], probability); a caught
exception is shown once and yields (None, None). -/
def make_prediction (m : Model) (input_data : Record) : PredOutcome :=
  let df := [input_data]
  match m.predict df with
  | .error e => ⟨(Option.none, Option.none), [predictionErrorMsg e], [df]⟩
  | .ok preds =>
    match m.predict_proba df with
    | .error e => ⟨(Option.none, Option.none), [predictionErrorMsg e], [df]⟩
    | .ok probas =>
      match preds, probas with
      | p :: _, q :: _ => ⟨(some p, some q), [], [df]⟩
      | _, _ => ⟨(Option.none, Option.none), [indexErrorMsg], [df]⟩

def class1Factor : String := "Higher chance of survival in 1st class"

def class2Factor : String := "Moderate chance of survival in 2nd class"
def class3Factor : String := "Lower chance of survival in 3rd class"
def femaleFactor : String :=
  "Being female significantly increased survival chances"
def maleFactor : String :=
  "Being male significantly decreased survival chances"
def childFactor : String := "Children had better survival chances"
def aloneFactor : String := "Traveling alone affected survival chances"
def largeFamilyFactor : String :=
  "Large family groups had more difficulty staying together"

/-- The three value strings of the class_risk dictionary. -/
def classFactors : List String := [class1Factor, class2Factor, class3Factor]

/-- The two possible sex factor strings. -/
def sexFactors : List String := [femaleFactor, maleFactor]

/-- The class_risk dictionary subscripted at Pclass; none stands for a
raised KeyError. -/
def class_risk (pclass : ℕ) : Option String :=
  if pclass = 1 then some class1Factor
  else if pclass = 2 then some class2Factor
  else if pclass = 3 then some class3Factor
  else Option.none

/-- The factors list built inside display_results, in source order:
class factor, sex factor, optional child factor, then the
alone / large-family if-elif chain on SibSp + Parch. -/
def buildFactors (r : Record) : Option (List String) :=
  match class_risk r.pclass with
  | Option.none => Option.none
  | some classFactor =>
    let sexFactor := if r.sex = "female" then femaleFactor else maleFactor
    let ageFactors := if r.age < 18 then [childFactor] else []
    let totalFamily := r.sibsp + r.parch
    let familyFactors :=
      if totalFamily = 0 then [aloneFactor]
      else if totalFamily > 4 then [largeFamilyFactor]
      else []
    some ([classFactor, sexFactor] ++ ageFactors ++ familyFactors)

/-- One rendered Streamlit element of the titanic page. The passenger
summary block carries the raw values it formats. -/
inductive Output where
  | success (msg : String)
  | errorBox (msg : String)
  | markdown (msg : String)
  | subheader (msg : String)
  | metric (label : String) (value : ℚ)
  | summary (pclass : ℕ) (sex : String) (age : ℕ) (embarked : String)
      (family : ℕ) (fare : ℚ)
deriving DecidableEq, Repr

/-- display_results from src/pag/titanic.py. A none result stands for
an exception escaping the function (KeyError on class_risk, or
subscripting a missing probability); the header is rendered
unconditionally and the rest only when prediction is not None. -/
def display_results (prediction : Option ℤ) (probability : Option (ℚ × ℚ))
    (input_data : Record) : Option (List Output) :=
  let header : List Output :=
    [Output.markdown "---", Output.subheader "Prediction Results"]
  match prediction with
  | Option.none => some header
  | some p =>
    match probability with
    | Option.none => Option.none
    | some q =>
      let outcome := if p = 1 then Output.success "### Predicted: SURVIVED"
                     else Output.errorBox "### Predicted: DID NOT SURVIVE"
      match buildFactors input_data with
      | Option.none => Option.none
      | some factors =>
        some (header ++
          [outcome, Output.metric "Survival Probability" (q.2 * 100),
           Output.markdown "### Key Factors Analysis"] ++
          factors.map (fun f => Output.markdown ("- " ++ f)) ++
          [Output.markdown "### Passenger Summary",
           Output.summary input_data.pclass input_data.sex input_data.age
             input_data.embarked (input_data.sibsp + input_data.parch)
             input_data.fare])

/-- main from src/pag/titanic.py: load the model, return early when
absent, collect input, and on the button press predict once and
render. -/
def main (artifact : Except String Model) (buttonPressed : Bool)
    (pclass : ℕ) (sex : String) (age : ℕ) (embarked : String)
    (sibsp parch : ℕ) (fare : ℚ) : Trace Output :=
  match load_model artifact with
  | (Option.none, msgs) => ⟨msgs, 0, 0, [], false⟩
  | (some m, msgs) =>
    let input_data := get_passenger_input pclass sex age embarked sibsp
      parch fare
    if buttonPressed then
      let t := make_prediction m input_data
      match display_results t.result.1 t.result.2 input_data with
      | some outs => ⟨msgs ++ t.errors, t.predictArgs.length, 1, outs, false⟩
      | Option.none => ⟨msgs ++ t.errors, t.predictArgs.length, 1, [], true⟩
    else ⟨msgs, 0, 0, [], false⟩

end Titanic

namespace App

/-- The fixed-schema record of src/app.py (only Age comes from a
widget; the remaining fields are hard-coded constants). -/
structure Record where
  pclass : ℕ
  sex : String
  age : ℚ
  sibsp : ℕ
  parch : ℕ
  fare : ℚ
  embarked : String
deriving DecidableEq, Repr

/-- The model handle loaded from titanic_pipe.pkl. -/
structure Model where
  predict : List Record → Except String (List ℤ)

/-- The somma helper of src/app.py. -/
def somma (l1 l2 : ℚ) : ℚ := l1 + l2

/-- The classes dictionary of src/app.py subscripted at the predicted
label; none stands for a raised KeyError. -/
def classes (res : ℤ) : Option String :=
  if res = 0 then some "died"
  else if res = 1 then some "survived"
  else Option.none

/-- The data dictionary built in src/app.py main for the given Age
widget value. -/
def appRecord (age : ℚ) : Record :=
  { pclass := 3, sex := "female", age := age, sibsp := 0, parch := 0,
    fare := 78/10, embarked := "Q" }

/-- main from src/app.py: jbl.load with no try/except, one predict
call with no try/except, then the classes dictionary subscript. Any
raised exception escapes the script: crashed is set and no error
banner is shown. The trailing rectangle-sum widget demo is rendered
after a successful prediction. -/
def main (artifact : Except String Model) (age : ℚ)
    (num1 num2 : ℕ) (sumButton : Bool) : Trace String :=
  match artifact with
  | .error _ => ⟨[], 0, 0, [], true⟩
  | .ok m =>
    let input_df := [appRecord age]
    match m.predict input_df with
    | .error _ => ⟨[], 1, 0, [], true⟩
    | .ok [] => ⟨[], 1, 0, [], true⟩
    | .ok (res :: _) =>
      match classes res with
      | Option.none => ⟨[], 1, 0, [], true⟩
      | some y_pred =>
        let r := somma (num1 : ℚ) (num2 : ℚ)
        ⟨[], 1, 1,
         [y_pred] ++ (if sumButton then [toString r] else []), false⟩

end App

/-- The Titanic scenario record of the spec: Pclass 1, Sex female,
Age 10, SibSp 0, Parch 0, Fare 50.0, Embarked S. -/
def c5Record : Titanic.Record :=
  { pclass := 1, sex := "female", age := 10, sibsp := 0, parch := 0,
    fare := 50, embarked := "S" }

namespace Diabetes

theorem bmiNotes_cases (r : Record) (s : String) (h : s ∈ bmiNotes r) :
    s = obesityNote ∨ s = overweightNote := by
  unfold bmiNotes at h
  split_ifs at h <;> simp_all

theorem bloodPressureNotes_cases (r : Record) (s : String)
    (h : s ∈ bloodPressureNotes r) : s = bloodPressureNote := by
  unfold bloodPressureNotes at h
  split_ifs at h <;> simp_all

theorem ageNotes_cases (r : Record) (s : String) (h : s ∈ ageNotes r) :
    s = ageNote := by
  unfold ageNotes at h
  split_ifs at h <;> simp_all

theorem pedigreeNotes_cases (r : Record) (s : String)
    (h : s ∈ pedigreeNotes r) : s = familyHistoryNote := by
  unfold pedigreeNotes at h
  split_ifs at h <;> simp_all

end Diabetes

/-- Claim C1 counterexample: at the default diabetes record with
Glucose 139 the borderline-glucose line is present, and after raising
Glucose to 140 (all other fields unchanged) it is gone, so an entry
present at 139 is removed — refuting that no entry is removed. -/
theorem C1_counterexample :
    Diabetes.borderlineGlucoseNote ∈ Diabetes.assess_risk_factors Diabetes.r139 ∧
    Diabetes.borderlineGlucoseNote ∉ Diabetes.assess_risk_factors Diabetes.r140 := by
  have h139 : Diabetes.assess_risk_factors Diabetes.r139 =
      [Diabetes.borderlineGlucoseNote] := by
    norm_num [Diabetes.assess_risk_factors, Diabetes.glucoseNotes,
      Diabetes.bmiNotes, Diabetes.bloodPressureNotes, Diabetes.ageNotes,
      Diabetes.pedigreeNotes, Diabetes.r139, Diabetes.r140]
  have h140 : Diabetes.assess_risk_factors Diabetes.r140 =
      [Diabetes.highGlucoseNote] := by
    norm_num [Diabetes.assess_risk_factors, Diabetes.glucoseNotes,
      Diabetes.bmiNotes, Diabetes.bloodPressureNotes, Diabetes.ageNotes,
      Diabetes.pedigreeNotes, Diabetes.r139, Diabetes.r140]
  rw [h139, h140]
  refine ⟨List.mem_singleton.mpr rfl, ?_⟩
  intro hmem
  rw [List.mem_singleton] at hmem
  exact absurd hmem (by decide)

/-- Claim C1 (amended): for any diabetes record with Glucose 139,
raising only Glucose to 140 adds the high-glucose line (absent before),
removes the borderline-glucose line (present before), and removes
nothing else from the assess_risk_factors output. -/
theorem C1_amended_thm (r : Diabetes.Record) (h : r.glucose = 139) :
    Diabetes.highGlucoseNote ∈
        Diabetes.assess_risk_factors { r with glucose := 140 } ∧
    Diabetes.highGlucoseNote ∉ Diabetes.assess_risk_factors r ∧
    Diabetes.borderlineGlucoseNote ∈ Diabetes.assess_risk_factors r ∧
    Diabetes.borderlineGlucoseNote ∉
        Diabetes.assess_risk_factors { r with glucose := 140 } ∧
    ∀ s ∈ Diabetes.assess_risk_factors r,
      s ≠ Diabetes.borderlineGlucoseNote →
        s ∈ Diabetes.assess_risk_factors { r with glucose := 140 } := by
  have hg : Diabetes.glucoseNotes r = [Diabetes.borderlineGlucoseNote] := by
    unfold Diabetes.glucoseNotes
    rw [h]; norm_num
  have hg' : Diabetes.glucoseNotes { r with glucose := 140 } =
      [Diabetes.highGlucoseNote] := by
    norm_num [Diabetes.glucoseNotes]
  have hb : Diabetes.bmiNotes { r with glucose := 140 } =
      Diabetes.bmiNotes r := rfl
  have hbp : Diabetes.bloodPressureNotes { r with glucose := 140 } =
      Diabetes.bloodPressureNotes r := rfl
  have ha : Diabetes.ageNotes { r with glucose := 140 } =
      Diabetes.ageNotes r := rfl
  have hp : Diabetes.pedigreeNotes { r with glucose := 140 } =
      Diabetes.pedigreeNotes r := rfl
  refine ⟨?_, ?_, ?_, ?_, ?_⟩
  · simp [Diabetes.assess_risk_factors, hg']
  · intro hmem
    simp [Diabetes.assess_risk_factors, hg] at hmem
    rcases hmem with h1 | h1 | h1 | h1 | h1
    · exact absurd h1 (by decide)
    · exact absurd (Diabetes.bmiNotes_cases r _ h1) (by decide)
    · exact absurd (Diabetes.bloodPressureNotes_cases r _ h1) (by decide)
    · exact absurd (Diabetes.ageNotes_cases r _ h1) (by decide)
    · exact absurd (Diabetes.pedigreeNotes_cases r _ h1) (by decide)
  · simp [Diabetes.assess_risk_factors, hg]
  · intro hmem
    simp [Diabetes.assess_risk_factors, hg', hb, hbp, ha, hp] at hmem
    rcases hmem with h1 | h1 | h1 | h1 | h1
    · exact absurd h1 (by decide)
    · exact absurd (Diabetes.bmiNotes_cases r _ h1) (by decide)
    · exact absurd (Diabetes.bloodPressureNotes_cases r _ h1) (by decide)
    · exact absurd (Diabetes.ageNotes_cases r _ h1) (by decide)
    · exact absurd (Diabetes.pedigreeNotes_cases r _ h1) (by decide)
  · intro s hs hne
    simp [Diabetes.assess_risk_factors, hg] at hs
    simp [Diabetes.assess_risk_factors, hg', hb, hbp, ha, hp]
    rcases hs with h1 | h1 | h1 | h1 | h1
    · exact absurd h1 hne
    · exact Or.inr (Or.inl h1)
    · exact Or.inr (Or.inr (Or.inl h1))
    · exact Or.inr (Or.inr (Or.inr (Or.inl h1)))
    · exact Or.inr (Or.inr (Or.inr (Or.inr h1)))

/-- Claim C1 amended witness at the default record with Glucose 139. -/
theorem C1_amended_witness :
    Diabetes.highGlucoseNote ∈
        Diabetes.assess_risk_factors { Diabetes.r139 with glucose := 140 } ∧
    Diabetes.highGlucoseNote ∉ Diabetes.assess_risk_factors Diabetes.r139 ∧
    Diabetes.borderlineGlucoseNote ∈ Diabetes.assess_risk_factors Diabetes.r139 ∧
    Diabetes.borderlineGlucoseNote ∉
        Diabetes.assess_risk_factors { Diabetes.r139 with glucose := 140 } ∧
    ∀ s ∈ Diabetes.assess_risk_factors Diabetes.r139,
      s ≠ Diabetes.borderlineGlucoseNote →
        s ∈ Diabetes.assess_risk_factors { Diabetes.r139 with glucose := 140 } :=
  C1_amended_thm Diabetes.r139 rfl

/-- Claim C4: any diabetes record with Glucose 150, BMI 32,
BloodPressure 70, Age 50 and the remaining fields within bounds yields a
risk-factor list containing the high-glucose, obesity and age lines in
that relative order. -/
theorem C4_thm (r : Diabetes.Record) (h1 : r.glucose = 150)
    (h2 : r.bmi = 32) (h3 : r.bloodPressure = 70) (h4 : r.age = 50)
    (_hv : Diabetes.validRecord r) :
    List.Sublist
      [Diabetes.highGlucoseNote, Diabetes.obesityNote, Diabetes.ageNote]
      (Diabetes.assess_risk_factors r) := by
  have hg : Diabetes.glucoseNotes r = [Diabetes.highGlucoseNote] := by
    unfold Diabetes.glucoseNotes; rw [h1]; norm_num
  have hb : Diabetes.bmiNotes r = [Diabetes.obesityNote] := by
    unfold Diabetes.bmiNotes; rw [h2]; norm_num
  have hbp : Diabetes.bloodPressureNotes r = [] := by
    unfold Diabetes.bloodPressureNotes; rw [h3]; norm_num
  have ha : Diabetes.ageNotes r = [Diabetes.ageNote] := by
    unfold Diabetes.ageNotes; rw [h4]; norm_num
  unfold Diabetes.assess_risk_factors
  rw [hg, hb, hbp, ha]
  have : [Diabetes.highGlucoseNote] ++ [Diabetes.obesityNote] ++ [] ++
      [Diabetes.ageNote] ++ Diabetes.pedigreeNotes r =
      [Diabetes.highGlucoseNote, Diabetes.obesityNote, Diabetes.ageNote] ++
        Diabetes.pedigreeNotes r := by simp
  rw [this]
  exact List.sublist_append_left _ _

/-- Claim C4 witness at a concrete record. -/
theorem C4_witness :
    List.Sublist
      [Diabetes.highGlucoseNote, Diabetes.obesityNote, Diabetes.ageNote]
      (Diabetes.assess_risk_factors
        { pregnancies := 0, glucose := 150, bloodPressure := 70,
          skinThickness := 20, insulin := 79, bmi := 32,
          diabetesPedigree := 32/100, age := 50 }) :=
  C4_thm _ rfl rfl rfl rfl (by norm_num [Diabetes.validRecord])

/-- Claim C2 counterexample: in src/app.py a predicted label of 2 —
outside the known output domain of the classes dictionary — raises an
uncaught KeyError in the label-to-display lookup, so the script run
crashes instead of producing a display. -/
theorem C2_counterexample :
    (App.main (Except.ok ⟨fun _ => Except.ok [2]⟩) 30 2 3 false).crashed = true ∧
    (App.classes 2).isSome = false :=
  ⟨rfl, rfl⟩

/-- Claim C2 (amended): the penguins renderer produces a display
headed by the results banner for every label value; the titanic
renderer succeeds for every integer label when the record has a valid
passenger class; but the classes lookup of src/app.py is total only
over the labels 0 and 1 and raises on any other label. -/
theorem C2_amended_thm :
    (∀ p : PyVal, (Penguins.display_results p).take 2 =
      [Penguins.Output.markdown "---",
       Penguins.Output.subheader "Prediction Results"]) ∧
    (∀ (z : ℤ) (q : ℚ × ℚ) (r : Titanic.Record),
      r.pclass ∈ ([1, 2, 3] : List ℕ) →
      (Titanic.display_results (some z) (some q) r).isSome = true) ∧
    (∀ z : ℤ, (App.classes z).isSome = true ↔ (z = 0 ∨ z = 1)) := by
  refine ⟨?_, ?_, ?_⟩
  · intro p
    by_cases h : truthy p <;> simp [Penguins.display_results, h]
  · intro z q r hp
    simp only [List.mem_cons, List.not_mem_nil, or_false,
      List.mem_singleton] at hp
    have hc : ∃ c, Titanic.class_risk r.pclass = some c := by
      rcases hp with h | h | h
      · exact ⟨Titanic.class1Factor, by simp [Titanic.class_risk, h]⟩
      · exact ⟨Titanic.class2Factor, by simp [Titanic.class_risk, h]⟩
      · exact ⟨Titanic.class3Factor, by simp [Titanic.class_risk, h]⟩
    obtain ⟨c, hc⟩ := hc
    simp [Titanic.display_results, Titanic.buildFactors, hc]
  · intro z
    unfold App.classes
    split_ifs with h1 h2 <;> simp_all

/-- Claim C2 amended witness: the titanic renderer succeeds at the
out-of-domain label 5 on a first-class record, and the app.py lookup
is defined at label 0. -/
theorem C2_amended_witness :
    ((Titanic.display_results (some 5) (some (1/2, 1/2))
      { pclass := 1, sex := "female", age := 30, sibsp := 0, parch := 0,
        fare := 32, embarked := "S" }).isSome = true) ∧
    ((App.classes 0).isSome = true ↔ ((0 : ℤ) = 0 ∨ (0 : ℤ) = 1)) :=
  ⟨C2_amended_thm.2.1 5 (1/2, 1/2) _ (by decide), C2_amended_thm.2.2 0⟩

/-- Claim C3 counterexample: in src/app.py a failing artifact load
(the file titanic_pipe.pkl does not exist) escapes as an uncaught
exception and no error message is shown, contradicting the claim for
the app.py app. -/
theorem C3_counterexample :
    (App.main (Except.error "No such file or directory: titanic_pipe.pkl")
        30 2 3 false).crashed = true ∧
    (App.main (Except.error "No such file or directory: titanic_pipe.pkl")
        30 2 3 false).errors = [] ∧
    (App.main (Except.error "No such file or directory: titanic_pipe.pkl")
        30 2 3 false).predictCalls = 0 :=
  ⟨rfl, rfl, rfl⟩

/-- Claim C3 (amended): in the diabetes, penguins and titanic apps a
load failure yields exactly one error message, no predictor or
renderer invocation, and no escaped exception; in src/app.py the load
failure escapes as an uncaught exception and no error message is
shown. -/
theorem C3_amended_thm :
    (∀ (e : String) (b : Bool) (pregnancies glucose bloodPressure
        skinThickness insulin : ℕ) (bmi dpf : ℚ) (age : ℕ),
      Diabetes.main (Except.error e) b pregnancies glucose bloodPressure
          skinThickness insulin bmi dpf age =
        ⟨[loadErrorMsg e], 0, 0, [], false⟩) ∧
    (∀ (e : String) (b : Bool) (bl bd : ℚ) (fl bm : ℕ) (sex island : String),
      Penguins.main (Except.error e) b bl bd fl bm sex island =
        ⟨[loadErrorMsg e], 0, 0, [], false⟩) ∧
    (∀ (e : String) (b : Bool) (pclass : ℕ) (sex : String) (age : ℕ)
        (embarked : String) (sibsp parch : ℕ) (fare : ℚ),
      Titanic.main (Except.error e) b pclass sex age embarked sibsp parch fare =
        ⟨[loadErrorMsg e], 0, 0, [], false⟩) ∧
    (∀ (e : String) (age : ℚ) (num1 num2 : ℕ) (sb : Bool),
      App.main (Except.error e) age num1 num2 sb = ⟨[], 0, 0, [], true⟩) :=
  ⟨fun _ _ _ _ _ _ _ _ _ _ => rfl, fun _ _ _ _ _ _ _ _ => rfl,
   fun _ _ _ _ _ _ _ _ _ => rfl, fun _ _ _ _ _ => rfl⟩

/-- Claim C5: on the scenario record, a button press runs the
prediction path exactly once, and when the model predicts label 1 the
rendered output shows SURVIVED and lists both the child factor and the
traveling-alone factor. -/
theorem C5_thm (m : Titanic.Model) (rest : List ℤ) (q : ℚ × ℚ)
    (qrest : List (ℚ × ℚ))
    (h1 : m.predict [c5Record] = Except.ok (1 :: rest))
    (h2 : m.predict_proba [c5Record] = Except.ok (q :: qrest)) :
    (Titanic.main (Except.ok m) true 1 "female" 10 "S" 0 0 50).predictCalls = 1 ∧
    (Titanic.main (Except.ok m) true 1 "female" 10 "S" 0 0 50).crashed = false ∧
    Titanic.Output.success "### Predicted: SURVIVED" ∈
      (Titanic.main (Except.ok m) true 1 "female" 10 "S" 0 0 50).outputs ∧
    Titanic.Output.markdown ("- " ++ Titanic.childFactor) ∈
      (Titanic.main (Except.ok m) true 1 "female" 10 "S" 0 0 50).outputs ∧
    Titanic.Output.markdown ("- " ++ Titanic.aloneFactor) ∈
      (Titanic.main (Except.ok m) true 1 "female" 10 "S" 0 0 50).outputs := by
  have hrec : Titanic.get_passenger_input 1 "female" 10 "S" 0 0 50 =
      c5Record := rfl
  have hmp : Titanic.make_prediction m c5Record =
      ⟨(some 1, some q), [], [[c5Record]]⟩ := by
    simp only [Titanic.make_prediction, h1, h2]
  have hbf : Titanic.buildFactors c5Record =
      some [Titanic.class1Factor, Titanic.femaleFactor,
            Titanic.childFactor, Titanic.aloneFactor] := by
    simp [Titanic.buildFactors, Titanic.class_risk, c5Record]
  have hdr : Titanic.display_results (some 1) (some q) c5Record =
      some [Titanic.Output.markdown "---",
            Titanic.Output.subheader "Prediction Results",
            Titanic.Output.success "### Predicted: SURVIVED",
            Titanic.Output.metric "Survival Probability" (q.2 * 100),
            Titanic.Output.markdown "### Key Factors Analysis",
            Titanic.Output.markdown ("- " ++ Titanic.class1Factor),
            Titanic.Output.markdown ("- " ++ Titanic.femaleFactor),
            Titanic.Output.markdown ("- " ++ Titanic.childFactor),
            Titanic.Output.markdown ("- " ++ Titanic.aloneFactor),
            Titanic.Output.markdown "### Passenger Summary",
            Titanic.Output.summary 1 "female" 10 "S" 0 50] := rfl
  have hmain : Titanic.main (Except.ok m) true 1 "female" 10 "S" 0 0 50 =
      ⟨[], 1, 1,
       [Titanic.Output.markdown "---",
        Titanic.Output.subheader "Prediction Results",
        Titanic.Output.success "### Predicted: SURVIVED",
        Titanic.Output.metric "Survival Probability" (q.2 * 100),
        Titanic.Output.markdown "### Key Factors Analysis",
        Titanic.Output.markdown ("- " ++ Titanic.class1Factor),
        Titanic.Output.markdown ("- " ++ Titanic.femaleFactor),
        Titanic.Output.markdown ("- " ++ Titanic.childFactor),
        Titanic.Output.markdown ("- " ++ Titanic.aloneFactor),
        Titanic.Output.markdown "### Passenger Summary",
        Titanic.Output.summary 1 "female" 10 "S" 0 50], false⟩ := by
    unfold Titanic.main Titanic.load_model
    rw [hrec]
    simp only [hmp, hdr, if_true]
    rfl
  rw [hmain]
  refine ⟨rfl, rfl, ?_, ?_, ?_⟩ <;> simp

/-- Claim C5 witness with a constant model predicting label 1 with
probability pair (3/10, 7/10). -/
theorem C5_witness :
    (Titanic.main (Except.ok ⟨fun _ => Except.ok [1],
        fun _ => Except.ok [(3/10, 7/10)]⟩)
      true 1 "female" 10 "S" 0 0 50).predictCalls = 1 ∧
    (Titanic.main (Except.ok ⟨fun _ => Except.ok [1],
        fun _ => Except.ok [(3/10, 7/10)]⟩)
      true 1 "female" 10 "S" 0 0 50).crashed = false ∧
    Titanic.Output.success "### Predicted: SURVIVED" ∈
      (Titanic.main (Except.ok ⟨fun _ => Except.ok [1],
          fun _ => Except.ok [(3/10, 7/10)]⟩)
        true 1 "female" 10 "S" 0 0 50).outputs ∧
    Titanic.Output.markdown ("- " ++ Titanic.childFactor) ∈
      (Titanic.main (Except.ok ⟨fun _ => Except.ok [1],
          fun _ => Except.ok [(3/10, 7/10)]⟩)
        true 1 "female" 10 "S" 0 0 50).outputs ∧
    Titanic.Output.markdown ("- " ++ Titanic.aloneFactor) ∈
      (Titanic.main (Except.ok ⟨fun _ => Except.ok [1],
          fun _ => Except.ok [(3/10, 7/10)]⟩)
        true 1 "female" 10 "S" 0 0 50).outputs :=
  C5_thm ⟨fun _ => Except.ok [1], fun _ => Except.ok [(3/10, 7/10)]⟩
    [] (3/10, 7/10) [] rfl rfl

/-- Claim C6: in all three page apps, when the inference entry point
raises, make_prediction catches it, shows exactly one error banner,
returns the null result, and predict was invoked exactly once with no
retry. -/
theorem C6_thm :
    (∀ (m : Titanic.Model) (r : Titanic.Record) (e : String),
      m.predict [r] = Except.error e →
      Titanic.make_prediction m r =
        ⟨(Option.none, Option.none), [predictionErrorMsg e], [[r]]⟩) ∧
    (∀ (m : Titanic.Model) (r : Titanic.Record) (e : String) (ps : List ℤ),
      m.predict [r] = Except.ok ps →
      m.predict_proba [r] = Except.error e →
      Titanic.make_prediction m r =
        ⟨(Option.none, Option.none), [predictionErrorMsg e], [[r]]⟩) ∧
    (∀ (m : Diabetes.Model) (r : Diabetes.Record) (e : String),
      m.predict [r] = Except.error e →
      Diabetes.make_prediction m r =
        ⟨(Option.none, Option.none), [predictionErrorMsg e], [[r]]⟩) ∧
    (∀ (m : Diabetes.Model) (r : Diabetes.Record) (e : String) (ps : List ℤ),
      m.predict [r] = Except.ok ps →
      m.predict_proba [r] = Except.error e →
      Diabetes.make_prediction m r =
        ⟨(Option.none, Option.none), [predictionErrorMsg e], [[r]]⟩) ∧
    (∀ (m : Penguins.Model) (r : Penguins.Record) (e : String),
      m.predict [r] = Except.error e →
      Penguins.make_prediction m r =
        ⟨PyVal.none, [predictionErrorMsg e], [[r]]⟩) := by
  refine ⟨?_, ?_, ?_, ?_, ?_⟩
  · intro m r e h
    simp only [Titanic.make_prediction, h]
  · intro m r e ps h h'
    simp only [Titanic.make_prediction, h, h']
  · intro m r e h
    simp only [Diabetes.make_prediction, h]
  · intro m r e ps h h'
    simp only [Diabetes.make_prediction, h, h']
  · intro m r e h
    simp only [Penguins.make_prediction, h]

/-- Claim C6 witness: a model whose predict raises "schema mismatch"
yields the null pair and the single error banner. -/
theorem C6_witness :
    Titanic.make_prediction
        ⟨fun _ => Except.error "schema mismatch", fun _ => Except.ok []⟩
        ⟨1, "male", 30, 0, 0, 32, "S"⟩ =
      ⟨(Option.none, Option.none), [predictionErrorMsg "schema mismatch"],
       [[⟨1, "male", 30, 0, 0, 32, "S"⟩]]⟩ :=
  C6_thm.1 ⟨fun _ => Except.error "schema mismatch", fun _ => Except.ok []⟩
    ⟨1, "male", 30, 0, 0, 32, "S"⟩ "schema mismatch" rfl

/-- Claim C7: for every valid record, make_prediction passes the model
exactly one freshly built one-row frame containing that record, and on
a successful prediction returns its first element as the single
label. -/
theorem C7_thm :
    (∀ (m : Penguins.Model) (r : Penguins.Record), Penguins.validRecord r →
      (Penguins.make_prediction m r).predictArgs = [[r]] ∧
      ∀ (l : PyVal) (rest : List PyVal),
        m.predict [r] = Except.ok (l :: rest) →
        (Penguins.make_prediction m r).result = l) ∧
    (∀ (m : Titanic.Model) (r : Titanic.Record), Titanic.validRecord r →
      (Titanic.make_prediction m r).predictArgs = [[r]] ∧
      ∀ (l : ℤ) (rest : List ℤ) (q : ℚ × ℚ) (qrest : List (ℚ × ℚ)),
        m.predict [r] = Except.ok (l :: rest) →
        m.predict_proba [r] = Except.ok (q :: qrest) →
        (Titanic.make_prediction m r).result.1 = some l) := by
  constructor
  · intro m r _
    constructor
    · rcases hp : m.predict [r] with e | ps
      · simp [Penguins.make_prediction, hp]
      · cases ps <;> simp [Penguins.make_prediction, hp]
    · intro l rest h
      simp [Penguins.make_prediction, h]
  · intro m r _
    constructor
    · rcases hp : m.predict [r] with e | ps
      · simp [Titanic.make_prediction, hp]
      · rcases hq : m.predict_proba [r] with e' | qs
        · simp [Titanic.make_prediction, hp, hq]
        · cases ps <;> cases qs <;> simp [Titanic.make_prediction, hp, hq]
    · intro l rest q qrest h h'
      simp [Titanic.make_prediction, h, h']

/-- Claim C7 witness at a concrete valid penguin record and a constant
model predicting the Adelie label. -/
theorem C7_witness :
    (Penguins.make_prediction ⟨fun _ => Except.ok [PyVal.str "Adelie"]⟩
        ⟨45, 17, 200, 4000, "male", "Biscoe"⟩).predictArgs =
      [[⟨45, 17, 200, 4000, "male", "Biscoe"⟩]] ∧
    (Penguins.make_prediction ⟨fun _ => Except.ok [PyVal.str "Adelie"]⟩
        ⟨45, 17, 200, 4000, "male", "Biscoe"⟩).result = PyVal.str "Adelie" := by
  have h := C7_thm.1 ⟨fun _ => Except.ok [PyVal.str "Adelie"]⟩
    ⟨45, 17, 200, 4000, "male", "Biscoe"⟩
    (by norm_num [Penguins.validRecord])
  exact ⟨h.1, h.2 (PyVal.str "Adelie") [] rfl⟩

/-- Claim C8: the penguins sex radio value is lower-cased into the
record and lands in the enumeration the model expects, while the
island selection and the titanic sex and embarkation selections are
passed through unchanged in their declared casing. -/
theorem C8_thm :
    (∀ (bl bd : ℚ) (fl bm : ℕ) (sex island : String),
      sex ∈ (["Male", "Female"] : List String) →
      (Penguins.get_user_input bl bd fl bm sex island).sex = pyLower sex ∧
      (Penguins.get_user_input bl bd fl bm sex island).sex ∈
        (["male", "female"] : List String) ∧
      (Penguins.get_user_input bl bd fl bm sex island).island = island) ∧
    (∀ (pclass : ℕ) (sex : String) (age : ℕ) (embarked : String)
        (sibsp parch : ℕ) (fare : ℚ),
      (Titanic.get_passenger_input pclass sex age embarked sibsp parch
        fare).sex = sex ∧
      (Titanic.get_passenger_input pclass sex age embarked sibsp parch
        fare).embarked = embarked) := by
  constructor
  · intro bl bd fl bm sex island hsex
    refine ⟨rfl, ?_, rfl⟩
    simp only [List.mem_cons, List.not_mem_nil, or_false,
      List.mem_singleton] at hsex
    rcases hsex with rfl | rfl
    · show pyLower "Male" ∈ _
      decide
    · show pyLower "Female" ∈ _
      decide
  · intro pclass sex age embarked sibsp parch fare
    exact ⟨rfl, rfl⟩

/-- Claim C8 witness at the Male selection and the Biscoe island. -/
theorem C8_witness :
    (Penguins.get_user_input 45 17 200 4000 "Male" "Biscoe").sex =
      pyLower "Male" ∧
    (Penguins.get_user_input 45 17 200 4000 "Male" "Biscoe").sex ∈
      (["male", "female"] : List String) ∧
    (Penguins.get_user_input 45 17 200 4000 "Male" "Biscoe").island =
      "Biscoe" :=
  C8_thm.1 45 17 200 4000 "Male" "Biscoe" (by decide)

theorem C9_shape (r : Titanic.Record)
    (hp : r.pclass ∈ ([1, 2, 3] : List ℕ)) :
    ∃ c s A F,
      Titanic.buildFactors r = some ([c, s] ++ A ++ F) ∧
      c ∈ Titanic.classFactors ∧ s ∈ Titanic.sexFactors ∧
      (A = [] ∨ A = [Titanic.childFactor]) ∧
      (F = [] ∨ F = [Titanic.aloneFactor] ∨
        F = [Titanic.largeFamilyFactor]) := by
  simp only [List.mem_cons, List.not_mem_nil, or_false,
    List.mem_singleton] at hp
  have hc : ∃ c, Titanic.class_risk r.pclass = some c ∧
      c ∈ Titanic.classFactors := by
    rcases hp with h | h | h
    · exact ⟨Titanic.class1Factor, by simp [Titanic.class_risk, h],
        by simp [Titanic.classFactors]⟩
    · exact ⟨Titanic.class2Factor, by simp [Titanic.class_risk, h],
        by simp [Titanic.classFactors]⟩
    · exact ⟨Titanic.class3Factor, by simp [Titanic.class_risk, h],
        by simp [Titanic.classFactors]⟩
  obtain ⟨c, hc, hcm⟩ := hc
  refine ⟨c,
    if r.sex = "female" then Titanic.femaleFactor else Titanic.maleFactor,
    if r.age < 18 then [Titanic.childFactor] else [],
    if r.sibsp + r.parch = 0 then [Titanic.aloneFactor]
    else if r.sibsp + r.parch > 4 then [Titanic.largeFamilyFactor] else [],
    ?_, hcm, ?_, ?_, ?_⟩
  · simp only [Titanic.buildFactors, hc]
  · split_ifs <;> simp [Titanic.sexFactors]
  · split_ifs <;> simp
  · split_ifs <;> simp

/-- Claim C9: every factors list built for a record with a valid
passenger class starts with one class factor followed by one sex
factor, contains exactly one of each, and never contains the
traveling-alone and large-family factors together. -/
theorem C9_thm (r : Titanic.Record)
    (hp : r.pclass ∈ ([1, 2, 3] : List ℕ)) :
    ∃ fs, Titanic.buildFactors r = some fs ∧
      (∃ c ∈ Titanic.classFactors, ∃ s ∈ Titanic.sexFactors,
        fs.take 2 = [c, s]) ∧
      (fs.filter (fun x => decide (x ∈ Titanic.classFactors))).length = 1 ∧
      (fs.filter (fun x => decide (x ∈ Titanic.sexFactors))).length = 1 ∧
      ¬(Titanic.aloneFactor ∈ fs ∧ Titanic.largeFamilyFactor ∈ fs) := by
  obtain ⟨c, s, A, F, hbf, hcm, hsm, hA, hF⟩ := C9_shape r hp
  refine ⟨[c, s] ++ A ++ F, hbf, ?_⟩
  have hcm' := hcm
  have hsm' := hsm
  simp only [Titanic.classFactors, List.mem_cons, List.not_mem_nil,
    or_false, List.mem_singleton] at hcm'
  simp only [Titanic.sexFactors, List.mem_cons, List.not_mem_nil,
    or_false, List.mem_singleton] at hsm'
  rcases hcm' with rfl | rfl | rfl <;>
    rcases hsm' with rfl | rfl <;>
    rcases hA with rfl | rfl <;>
    rcases hF with rfl | rfl | rfl <;>
    decide

/-- Claim C9 witness at a third-class record with a family of two. -/
theorem C9_witness :
    ∃ fs, Titanic.buildFactors ⟨3, "male", 40, 1, 1, 20, "C"⟩ = some fs ∧
      (∃ c ∈ Titanic.classFactors, ∃ s ∈ Titanic.sexFactors,
        fs.take 2 = [c, s]) ∧
      (fs.filter (fun x => decide (x ∈ Titanic.classFactors))).length = 1 ∧
      (fs.filter (fun x => decide (x ∈ Titanic.sexFactors))).length = 1 ∧
      ¬(Titanic.aloneFactor ∈ fs ∧ Titanic.largeFamilyFactor ∈ fs) :=
  C9_thm ⟨3, "male", 40, 1, 1, 20, "C"⟩ (by decide)

/-- Claim C10: under a falsy prediction value (None, the integer 0, or
the empty string) the penguins renderer emits exactly the output it
emits for an inference failure (None) — no success banner and no
species commentary. -/
theorem C10_thm (p : PyVal) (h : truthy p = false) :
    Penguins.display_results p = Penguins.display_results PyVal.none ∧
    ∀ o ∈ Penguins.display_results p,
      (∀ msg, o ≠ Penguins.Output.success msg) ∧
      (∀ msg, o ≠ Penguins.Output.info msg) := by
  have hd : Penguins.display_results p =
      [Penguins.Output.markdown "---",
       Penguins.Output.subheader "Prediction Results"] := by
    simp [Penguins.display_results, h]
  have hn : Penguins.display_results PyVal.none =
      [Penguins.Output.markdown "---",
       Penguins.Output.subheader "Prediction Results"] := rfl
  rw [hd, hn]
  refine ⟨rfl, ?_⟩
  intro o ho
  simp only [List.mem_cons, List.not_mem_nil, or_false,
    List.mem_singleton] at ho
  rcases ho with rfl | rfl
  · exact ⟨fun _ hh => Penguins.Output.noConfusion hh,
      fun _ hh => Penguins.Output.noConfusion hh⟩
  · exact ⟨fun _ hh => Penguins.Output.noConfusion hh,
      fun _ hh => Penguins.Output.noConfusion hh⟩

/-- Claim C10 witness at the falsy integer label 0. -/
theorem C10_witness :
    truthy (PyVal.int 0) = false ∧
    (Penguins.display_results (PyVal.int 0) =
      Penguins.display_results PyVal.none ∧
    ∀ o ∈ Penguins.display_results (PyVal.int 0),
      (∀ msg, o ≠ Penguins.Output.success msg) ∧
      (∀ msg, o ≠ Penguins.Output.info msg)) :=
  ⟨rfl, C10_thm (PyVal.int 0) rfl⟩
